import Mathlib

/-!
Verification of the Airport Management System's reservation allocation
subsystem, shallowly embedded from `database.js` (the Sequelize table
definitions and associations) and the Express route handlers
(`/flight/create`, `/reservation/create`, `/reservation/delete`,
`/reservation/flight/:ID`).

Stored rows mirror the five Sequelize models; the store is the SQLite
database (one list per table plus the autoincrement counters SQLite
assigns to the `INTEGER PRIMARY KEY` columns).  Each handler becomes a
function from a store and the validated request fields to a response and
an updated store; a JavaScript `TypeError` raised by dereferencing a
`null` association inside a `try` block is modelled by taking the
handler's `catch` branch (the generic 500 response) with the store as it
stood when the exception was thrown.
-/

set_option autoImplicit false

namespace AirportMS

/-- Row of the `Airport` table (`sequelize.define('Airport', ...)`). -/
structure Airport where
  ID : Nat
  Name : String
  Latitude : Int
  Longitude : Int
  Timezone : String
  deriving Repr, DecidableEq

/-- Row of the `Itinerary` table. -/
structure Itinerary where
  ID : Nat
  Code : String
  OriginAirportID : Nat
  DestinationAirportID : Nat
  DurationMinutes : Nat
  deriving Repr, DecidableEq

/-- Row of the `Flights` table. -/
structure Flights where
  ID : Nat
  ItineraryID : Nat
  DepartureTime : Nat
  ArrivalTime : Nat
  AirplaneID : Nat
  deriving Repr, DecidableEq

/-- Row of the `Reservation` table. -/
structure Reservation where
  ID : Nat
  PassengerName : String
  FlightID : Nat
  deriving Repr, DecidableEq

/-- Row of the `Airplane` table. -/
structure Airplane where
  ID : Nat
  Name : String
  Model : String
  Capacity : Nat
  deriving Repr, DecidableEq

/-- The SQLite database: one list of rows per table, plus the rowid
autoincrement counters for the two tables the handlers insert into. -/
structure Store where
  airports : List Airport
  itineraries : List Itinerary
  airplanes : List Airplane
  flights : List Flights
  reservations : List Reservation
  nextFlightID : Nat
  nextReservationID : Nat
  deriving Repr, DecidableEq

/-- `Flights.findOne` with the `include` clauses of the reservation
handlers: the flight row together with its eagerly hydrated `Itinerary`
(which in turn carries `OriginAirport` and `DestinationAirport`) and
`Airplane` associations, each `none` when the foreign key dangles. -/
structure HydratedFlight where
  self : Flights
  itinerary : Option Itinerary
  origin : Option Airport
  dest : Option Airport
  airplane : Option Airplane
  deriving Repr, DecidableEq

/-- `Flights.findOne({ where: { ID }, include: [Itinerary with both
Airports, Airplane] })`. -/
def findFlightHydrated (st : Store) (fid : Nat) : Option HydratedFlight :=
  (st.flights.find? (fun f => f.ID == fid)).map (fun f =>
    let itin := st.itineraries.find? (fun i => i.ID == f.ItineraryID)
    { self := f
      itinerary := itin
      origin := itin.bind (fun i => st.airports.find? (fun a => a.ID == i.OriginAirportID))
      dest := itin.bind (fun i => st.airports.find? (fun a => a.ID == i.DestinationAirportID))
      airplane := st.airplanes.find? (fun a => a.ID == f.AirplaneID) })

/-- `Reservation.count({ where: { FlightID } })`. -/
def reservationCount (st : Store) (fid : Nat) : Nat :=
  st.reservations.countP (fun r => r.FlightID == fid)

/-- Nested `OriginAirport` / `DestinationAirport` object of a reservation
response. -/
structure AirportView where
  ID : Nat
  Name : String
  Latitude : Int
  Longitude : Int
  Timezone : String
  deriving Repr, DecidableEq

/-- Nested `Itinerary` object of a reservation response. -/
structure ItineraryView where
  ID : Nat
  Code : String
  OriginAirport : AirportView
  DestinationAirport : AirportView
  DurationMinutes : Nat
  deriving Repr, DecidableEq

/-- Nested `Airplane` object of a reservation response. -/
structure AirplaneView where
  ID : Nat
  Name : String
  Model : String
  Capacity : Nat
  deriving Repr, DecidableEq

/-- Nested `Flight` object of a reservation response. -/
structure FlightView where
  ID : Nat
  DepartureTime : Nat
  ArrivalTime : Nat
  Itinerary : ItineraryView
  Airplane : AirplaneView
  deriving Repr, DecidableEq

/-- The denormalized reservation object returned by the booking and
list-by-flight handlers. -/
structure ReservationRecord where
  ID : Nat
  PassengerName : String
  Flight : FlightView
  deriving Repr, DecidableEq

/-- A handler's HTTP response: an error body with its status code, or one
of the 200 bodies the embedded handlers produce. -/
inductive Response where
  | err (status : Nat) (error : String)
  | okMessage (message : String)
  | okFlight (message : String) (flight : Flights)
  | okReservation (message : String) (reservation : ReservationRecord)
  | okReservations (message : String) (reservations : List ReservationRecord)
  deriving Repr, DecidableEq

/-- HTTP status code of a response (every non-error body is sent with
`res.status(200)`). -/
def Response.status : Response → Nat
  | .err s _ => s
  | _ => 200

/-- The object literal of the booking handler's 200 response
(`reservation: { ID, PassengerName, Flight: { ... } }`); `none` models
the `TypeError` thrown when a dereferenced association is `null`. -/
def mkCreateRecord (r : Reservation) (hf : HydratedFlight) : Option ReservationRecord :=
  match hf.itinerary, hf.origin, hf.dest, hf.airplane with
  | some itin, some o, some d, some ap =>
    some
      { ID := r.ID
        PassengerName := r.PassengerName
        Flight :=
          { ID := hf.self.ID
            DepartureTime := hf.self.DepartureTime
            ArrivalTime := hf.self.ArrivalTime
            Itinerary :=
              { ID := itin.ID
                Code := itin.Code
                OriginAirport :=
                  { ID := o.ID, Name := o.Name, Latitude := o.Latitude
                    Longitude := o.Longitude, Timezone := o.Timezone }
                DestinationAirport :=
                  { ID := d.ID, Name := d.Name, Latitude := d.Latitude
                    Longitude := d.Longitude, Timezone := d.Timezone }
                DurationMinutes := itin.DurationMinutes }
            Airplane :=
              { ID := ap.ID, Name := ap.Name, Model := ap.Model
                Capacity := ap.Capacity } } }
  | _, _, _, _ => none

/-- The per-item object literal of the list-by-flight handler's
`reservations.map` callback; written out separately because the source
repeats the shape at that second site. -/
def mkListRecord (r : Reservation) (hf : HydratedFlight) : Option ReservationRecord :=
  match hf.itinerary, hf.origin, hf.dest, hf.airplane with
  | some itin, some o, some d, some ap =>
    some
      { ID := r.ID
        PassengerName := r.PassengerName
        Flight :=
          { ID := hf.self.ID
            DepartureTime := hf.self.DepartureTime
            ArrivalTime := hf.self.ArrivalTime
            Itinerary :=
              { ID := itin.ID
                Code := itin.Code
                OriginAirport :=
                  { ID := o.ID, Name := o.Name, Latitude := o.Latitude
                    Longitude := o.Longitude, Timezone := o.Timezone }
                DestinationAirport :=
                  { ID := d.ID, Name := d.Name, Latitude := d.Latitude
                    Longitude := d.Longitude, Timezone := d.Timezone }
                DurationMinutes := itin.DurationMinutes }
            Airplane :=
              { ID := ap.ID, Name := ap.Name, Model := ap.Model
                Capacity := ap.Capacity } } }
  | _, _, _, _ => none

/-- `POST /api/reservation/create` after field validation: look the
flight up with its associations (409 `No such flight exists.` when
absent), count the flight's reservations and compare against
`existingFlight.Airplane.Capacity` (a `null` `Airplane` makes that
dereference throw, landing in the `catch` → 500 with nothing inserted;
a count at or above capacity → 409 `The flight is already full.`),
otherwise insert the row and build the denormalized 200 response (a
`null` `Itinerary` or airport throws there, after the insert). -/
def createReservation (st : Store) (pname : String) (fid : Nat) : Response × Store :=
  match findFlightHydrated st fid with
  | none => (.err 409 "No such flight exists.", st)
  | some hf =>
    let n := reservationCount st fid
    match hf.airplane with
    | none => (.err 500 "Failed to create reservation.", st)
    | some ap =>
      if n ≥ ap.Capacity then
        (.err 409 "The flight is already full.", st)
      else
        let r : Reservation :=
          { ID := st.nextReservationID, PassengerName := pname, FlightID := fid }
        let st' : Store :=
          { st with reservations := st.reservations ++ [r]
                    nextReservationID := st.nextReservationID + 1 }
        match mkCreateRecord r hf with
        | none => (.err 500 "Failed to create reservation.", st')
        | some record => (.okReservation "Reservation created successfully" record, st')

/-- `DELETE /api/reservation/delete`: `!ID` (so a missing or zero ID)
→ 400; `Reservation.findOne({ where: { ID } })` missing → 404;
otherwise `reservation.destroy()` deletes the row with that primary key
→ 200. -/
def deleteReservation (st : Store) (id : Nat) : Response × Store :=
  if id = 0 then
    (.err 400 "ID is required in the body.", st)
  else
    match st.reservations.find? (fun r => r.ID == id) with
    | none => (.err 404 "Reservation not found.", st)
    | some _ =>
      (.okMessage "Reservation deleted successfully.",
        { st with reservations := st.reservations.filter (fun r => r.ID != id) })

/-- `GET /api/reservation/flight/:ID`: flight lookup with associations
(409 when absent), then `Reservation.findAll({ where: { FlightID:
existingFlight.ID } })` mapped through the denormalizing callback; the
callback's `null` dereference throws (→ catch → 500) only when it runs,
i.e. only when at least one reservation exists. -/
def listReservationsForFlight (st : Store) (fid : Nat) : Response :=
  match findFlightHydrated st fid with
  | none => .err 409 "No such flight exists."
  | some hf =>
    let rs := st.reservations.filter (fun r => r.FlightID == hf.self.ID)
    match rs.mapM (fun r => mkListRecord r hf) with
    | none => .err 500 "Internal server error."
    | some records => .okReservations "Reservations retrieved successfully" records

/-- `POST /api/flight/create` after field validation: 409 `Invalid
itinerary ID.` when `ItineraryID` matches no itinerary, then 409
`Invalid airplane ID.` when `AirplaneID` matches no airplane, then 422
when `ArrivalTime <= DepartureTime`, otherwise insert and 200. -/
def createFlight (st : Store) (itinID depT arrT apID : Nat) : Response × Store :=
  match st.itineraries.find? (fun i => i.ID == itinID) with
  | none => (.err 409 "Invalid itinerary ID.", st)
  | some _ =>
    match st.airplanes.find? (fun a => a.ID == apID) with
    | none => (.err 409 "Invalid airplane ID.", st)
    | some _ =>
      if arrT ≤ depT then
        (.err 422 "Arrival time must be after departure time.", st)
      else
        let f : Flights :=
          { ID := st.nextFlightID, ItineraryID := itinID
            DepartureTime := depT, ArrivalTime := arrT, AirplaneID := apID }
        (.okFlight "Flight created successfully" f,
          { st with flights := st.flights ++ [f], nextFlightID := st.nextFlightID + 1 })

/-!
Concurrency model of the booking handler.  The handler suspends at each
`await` (`Flights.findOne`, `Reservation.count`, `Reservation.create`);
between two suspensions another request may run against the shared
store.  A task is the handler for one request, cut at those boundaries.
-/

/-- Progress of one in-flight booking request: before the flight lookup,
after the lookup (association snapshot in hand), after the count
(snapshot of the count in hand), or finished with a response. -/
inductive BookPhase where
  | start
  | found (hf : HydratedFlight)
  | counted (hf : HydratedFlight) (n : Nat)
  | done (resp : Response)
  deriving Repr, DecidableEq

/-- One booking request: its validated fields and its progress. -/
structure BookTask where
  pname : String
  fid : Nat
  phase : BookPhase
  deriving Repr, DecidableEq

/-- Run one atomic unit of the booking handler against the store: the
units are exactly the spans between the handler's `await` points, so the
capacity comparison and the insert form one unit but the count that
feeds them is a separate, earlier unit. -/
def bookStep (st : Store) (t : BookTask) : BookTask × Store :=
  match t.phase with
  | .start =>
    match findFlightHydrated st t.fid with
    | none => ({ t with phase := .done (.err 409 "No such flight exists.") }, st)
    | some hf => ({ t with phase := .found hf }, st)
  | .found hf =>
    ({ t with phase := .counted hf (reservationCount st t.fid) }, st)
  | .counted hf n =>
    match hf.airplane with
    | none => ({ t with phase := .done (.err 500 "Failed to create reservation.") }, st)
    | some ap =>
      if n ≥ ap.Capacity then
        ({ t with phase := .done (.err 409 "The flight is already full.") }, st)
      else
        let r : Reservation :=
          { ID := st.nextReservationID, PassengerName := t.pname, FlightID := t.fid }
        let st' : Store :=
          { st with reservations := st.reservations ++ [r]
                    nextReservationID := st.nextReservationID + 1 }
        match mkCreateRecord r hf with
        | none => ({ t with phase := .done (.err 500 "Failed to create reservation.") }, st')
        | some record =>
          ({ t with phase := .done (.okReservation "Reservation created successfully" record) }, st')
  | .done resp => ({ t with phase := .done resp }, st)

/-- Two booking requests sharing the store. -/
structure Conc2 where
  store : Store
  a : BookTask
  b : BookTask
  deriving Repr, DecidableEq

/-- Let task `a` (when the scheduler picks `true`) or task `b` run one
atomic unit. -/
def stepConc (c : Conc2) (pick : Bool) : Conc2 :=
  if pick then
    let (a', st') := bookStep c.store c.a
    { c with a := a', store := st' }
  else
    let (b', st') := bookStep c.store c.b
    { c with b := b', store := st' }

/-- Run a schedule (a list of scheduler picks) from a configuration. -/
def runConc (c : Conc2) (sched : List Bool) : Conc2 :=
  sched.foldl stepConc c

/-- A task finished with a 200 response (its reservation was admitted
and persisted). -/
def BookPhase.finishedOk : BookPhase → Bool
  | .done resp => resp.status == 200
  | _ => false

/-!  A small concrete database used to instantiate the theorems: two
airports, one itinerary between them, one airplane of capacity 1 and one
airplane of capacity 2, one flight on each airplane, one flight whose
airplane was deleted, and no reservations. -/

/-- Demo airport 1. -/
def airportAlpha : Airport :=
  { ID := 1, Name := "Alpha", Latitude := 10, Longitude := 20, Timezone := "GMT+1" }

/-- Demo airport 2. -/
def airportBeta : Airport :=
  { ID := 2, Name := "Beta", Latitude := -30, Longitude := 40, Timezone := "GMT+2" }

/-- Demo itinerary from airport 1 to airport 2. -/
def itineraryAB : Itinerary :=
  { ID := 1, Code := "AB1", OriginAirportID := 1, DestinationAirportID := 2
    DurationMinutes := 90 }

/-- Demo airplane of capacity 1. -/
def airplaneSolo : Airplane := { ID := 1, Name := "Solo", Model := "S1", Capacity := 1 }

/-- Demo airplane of capacity 2. -/
def airplaneDuo : Airplane := { ID := 2, Name := "Duo", Model := "D2", Capacity := 2 }

/-- Demo flight on the capacity-1 airplane. -/
def flightSolo : Flights :=
  { ID := 1, ItineraryID := 1, DepartureTime := 100, ArrivalTime := 190, AirplaneID := 1 }

/-- Demo flight on the capacity-2 airplane. -/
def flightDuo : Flights :=
  { ID := 2, ItineraryID := 1, DepartureTime := 200, ArrivalTime := 290, AirplaneID := 2 }

/-- Demo flight whose `AirplaneID` (9) matches no airplane row. -/
def flightGhost : Flights :=
  { ID := 3, ItineraryID := 1, DepartureTime := 300, ArrivalTime := 390, AirplaneID := 9 }

/-- Concrete store: flight 1 has capacity 1, flight 2 capacity 2, flight
3 a dangling `AirplaneID`; no reservations yet. -/
def demoStore : Store :=
  { airports := [airportAlpha, airportBeta]
    itineraries := [itineraryAB]
    airplanes := [airplaneSolo, airplaneDuo]
    flights := [flightSolo, flightDuo, flightGhost]
    reservations := []
    nextFlightID := 4
    nextReservationID := 1 }

/-- What `findFlightHydrated demoStore 1` produces. -/
def hydratedSolo : HydratedFlight :=
  { self := flightSolo, itinerary := some itineraryAB, origin := some airportAlpha
    dest := some airportBeta, airplane := some airplaneSolo }

/-- What `findFlightHydrated demoStore 2` produces. -/
def hydratedDuo : HydratedFlight :=
  { self := flightDuo, itinerary := some itineraryAB, origin := some airportAlpha
    dest := some airportBeta, airplane := some airplaneDuo }

/-- What `findFlightHydrated demoStore 3` produces: the airplane
association is `null`. -/
def hydratedGhost : HydratedFlight :=
  { self := flightGhost, itinerary := some itineraryAB, origin := some airportAlpha
    dest := some airportBeta, airplane := none }

/-- The demo store with one reservation (ID 1, flight 2) already stored. -/
def demoStoreR : Store :=
  { demoStore with
    reservations := [{ ID := 1, PassengerName := "Carol", FlightID := 2 }]
    nextReservationID := 2 }

/-- The nested `Flight` object a reservation response builds from a
fully hydrated flight context. -/
def flightViewOf (f : Flights) (itin : Itinerary) (o d : Airport) (ap : Airplane) : FlightView :=
  { ID := f.ID
    DepartureTime := f.DepartureTime
    ArrivalTime := f.ArrivalTime
    Itinerary :=
      { ID := itin.ID
        Code := itin.Code
        OriginAirport :=
          { ID := o.ID, Name := o.Name, Latitude := o.Latitude
            Longitude := o.Longitude, Timezone := o.Timezone }
        DestinationAirport :=
          { ID := d.ID, Name := d.Name, Latitude := d.Latitude
            Longitude := d.Longitude, Timezone := d.Timezone }
        DurationMinutes := itin.DurationMinutes }
    Airplane := { ID := ap.ID, Name := ap.Name, Model := ap.Model, Capacity := ap.Capacity } }

/-- The store after the booking handler's `Reservation.create`. -/
def insertReservationState (st : Store) (pname : String) (fid : Nat) : Store :=
  { st with
    reservations :=
      st.reservations ++ [{ ID := st.nextReservationID, PassengerName := pname, FlightID := fid }]
    nextReservationID := st.nextReservationID + 1 }

/-- Initial configuration of the race: two booking requests for the
capacity-1 flight 1 of `demoStore`, neither started. -/
def raceStart : Conc2 :=
  { store := demoStore
    a := { pname := "Alice", fid := 1, phase := .start }
    b := { pname := "Bob", fid := 1, phase := .start } }

/-- A legal schedule for the shared store: both tasks pass their flight
lookup and their count before either reaches its insert. -/
def raceSchedule : List Bool := [true, false, true, false, true, false]

/-- The configuration after running the race schedule. -/
def raceResult : Conc2 := runConc raceStart raceSchedule

/-! ### Supporting lemmas -/

/-- Inverting a successful hydrated lookup: the flight row is the one
`find?` returns, and its `ID` equals the requested one. -/
theorem findFlightHydrated_inv {st : Store} {fid : Nat} {hf : HydratedFlight}
    (h : findFlightHydrated st fid = some hf) :
    st.flights.find? (fun f => f.ID == fid) = some hf.self ∧ hf.self.ID = fid := by
  unfold findFlightHydrated at h
  rcases Option.map_eq_some'.1 h with ⟨f, hfind, hbuild⟩
  have hID : f.ID = fid := by
    have := List.find?_some hfind
    simpa using this
  subst hbuild
  exact ⟨hfind, hID⟩

/-- The hydrated lookup reads only the four entity tables, not the
reservations or the counters. -/
theorem findFlightHydrated_congr {st st' : Store} (fid : Nat)
    (hF : st'.flights = st.flights) (hI : st'.itineraries = st.itineraries)
    (hA : st'.airports = st.airports) (hP : st'.airplanes = st.airplanes) :
    findFlightHydrated st' fid = findFlightHydrated st fid := by
  unfold findFlightHydrated
  rw [hF, hI, hA, hP]

/-- The two response-building sites of the source produce the same
object. -/
theorem mkListRecord_eq_mkCreateRecord (r : Reservation) (hf : HydratedFlight) :
    mkListRecord r hf = mkCreateRecord r hf := by
  unfold mkListRecord mkCreateRecord
  rfl

/-- On a fully hydrated flight the response builder succeeds and returns
the denormalized record. -/
theorem mkCreateRecord_eq_some (r : Reservation) {hf : HydratedFlight}
    {itin : Itinerary} {o d : Airport} {ap : Airplane}
    (h2 : hf.itinerary = some itin) (h3 : hf.origin = some o)
    (h4 : hf.dest = some d) (h5 : hf.airplane = some ap) :
    mkCreateRecord r hf =
      some { ID := r.ID, PassengerName := r.PassengerName
             Flight := flightViewOf hf.self itin o d ap } := by
  unfold mkCreateRecord
  rw [h2, h3, h4, h5]
  rfl

/-- When capacity is exhausted the booking handler rejects with the 409
`FlightFull` error and leaves the store untouched. -/
theorem createReservation_of_ge {st : Store} (pname : String) {fid : Nat}
    {hf : HydratedFlight} {ap : Airplane}
    (h1 : findFlightHydrated st fid = some hf) (h5 : hf.airplane = some ap)
    (hge : ap.Capacity ≤ reservationCount st fid) :
    createReservation st pname fid = (.err 409 "The flight is already full.", st) := by
  unfold createReservation
  rw [h1]
  simp [h5, hge]

/-- When a seat remains the booking handler inserts the row, whatever
happens while the response is being assembled. -/
theorem createReservation_state_of_lt {st : Store} (pname : String) {fid : Nat}
    {hf : HydratedFlight} {ap : Airplane}
    (h1 : findFlightHydrated st fid = some hf) (h5 : hf.airplane = some ap)
    (hlt : reservationCount st fid < ap.Capacity) :
    (createReservation st pname fid).2 = insertReservationState st pname fid := by
  unfold createReservation
  rw [h1]
  simp only [h5, Nat.not_le.mpr hlt, ge_iff_le, if_false]
  cases mkCreateRecord
      { ID := st.nextReservationID, PassengerName := pname, FlightID := fid } hf <;>
    rfl

/-- With a seat remaining and a fully hydrated context the booking
handler answers 200 with the denormalized record. -/
theorem createReservation_resp_of_lt {st : Store} (pname : String) {fid : Nat}
    {hf : HydratedFlight} {itin : Itinerary} {o d : Airport} {ap : Airplane}
    (h1 : findFlightHydrated st fid = some hf)
    (h2 : hf.itinerary = some itin) (h3 : hf.origin = some o)
    (h4 : hf.dest = some d) (h5 : hf.airplane = some ap)
    (hlt : reservationCount st fid < ap.Capacity) :
    (createReservation st pname fid).1 =
      .okReservation "Reservation created successfully"
        { ID := st.nextReservationID, PassengerName := pname
          Flight := flightViewOf hf.self itin o d ap } := by
  unfold createReservation
  rw [h1]
  simp only [h5, Nat.not_le.mpr hlt, ge_iff_le, if_false]
  rw [mkCreateRecord_eq_some _ h2 h3 h4 h5]

/-- Inserting a reservation for `fid` raises its count by one. -/
theorem reservationCount_insert (st : Store) (pname : String) (fid : Nat) :
    reservationCount (insertReservationState st pname fid) fid = reservationCount st fid + 1 := by
  simp [reservationCount, insertReservationState]

/-- Inserting a reservation keeps the entity tables unchanged. -/
theorem insertReservationState_tables (st : Store) (pname : String) (fid : Nat) :
    (insertReservationState st pname fid).flights = st.flights ∧
    (insertReservationState st pname fid).itineraries = st.itineraries ∧
    (insertReservationState st pname fid).airports = st.airports ∧
    (insertReservationState st pname fid).airplanes = st.airplanes :=
  ⟨rfl, rfl, rfl, rfl⟩

/-- Mapping a total function under the `Option` monad never fails. -/
theorem mapM_option_total {α β : Type} (g : α → β) (l : List α) :
    l.mapM (fun a => some (g a)) = some (l.map g) := by
  induction l with
  | nil => rfl
  | cons a l ih => rw [List.mapM_cons, ih]; rfl

/-! ### Claims -/

/-- C1: for a stored flight with a hydrated airplane, a booking request
is admitted (a `Reservation` row is appended) iff the current count of
reservations for the flight is strictly below the airplane's capacity;
at `count = capacity` the handler answers 409 `The flight is already
full.` and leaves the store unchanged; and with zero reservations and
`Capacity ≥ 1` the request is always admitted. -/
theorem C1_admission_boundary (st : Store) (pname : String) (fid : Nat)
    (hf : HydratedFlight) (ap : Airplane)
    (h1 : findFlightHydrated st fid = some hf) (h5 : hf.airplane = some ap) :
    ((createReservation st pname fid).2.reservations =
        st.reservations ++
          [{ ID := st.nextReservationID, PassengerName := pname, FlightID := fid }]
      ↔ reservationCount st fid < ap.Capacity)
    ∧ (reservationCount st fid = ap.Capacity →
        createReservation st pname fid = (.err 409 "The flight is already full.", st))
    ∧ (reservationCount st fid = 0 → 1 ≤ ap.Capacity →
        (createReservation st pname fid).2.reservations =
          st.reservations ++
            [{ ID := st.nextReservationID, PassengerName := pname, FlightID := fid }]) := by
  refine ⟨⟨?_, ?_⟩, ?_, ?_⟩
  · intro hins
    by_contra hge
    rw [Nat.not_lt] at hge
    rw [createReservation_of_ge pname h1 h5 hge] at hins
    have := congrArg List.length hins
    simp at this
  · intro hlt
    rw [createReservation_state_of_lt pname h1 h5 hlt]
    rfl
  · intro heq
    exact createReservation_of_ge pname h1 h5 (Nat.le_of_eq heq.symm)
  · intro h0 hcap
    have hlt : reservationCount st fid < ap.Capacity := by omega
    rw [createReservation_state_of_lt pname h1 h5 hlt]
    rfl

/-- C1 witness: on the fresh demo store, booking the capacity-1 flight 1
appends the reservation row. -/
theorem C1_witness :
    (createReservation demoStore "Ann" 1).2.reservations =
      demoStore.reservations ++ [{ ID := 1, PassengerName := "Ann", FlightID := 1 }] :=
  (C1_admission_boundary demoStore "Ann" 1 hydratedSolo airplaneSolo (by rfl) rfl).2.2
    rfl (by decide)

/-- C2 counterexample: on the capacity-1 flight 1 with zero existing
reservations (one seat remaining), the schedule that lets both booking
requests run their count before either inserts makes both requests
succeed with 200, leaving 2 reservations on a capacity-1 airplane — the
count-then-insert sequence is not atomic per flightId. -/
theorem C2_counterexample :
    airplaneSolo.Capacity = 1 ∧
    reservationCount demoStore 1 = 0 ∧
    raceResult.a.phase.finishedOk = true ∧
    raceResult.b.phase.finishedOk = true ∧
    reservationCount raceResult.store 1 = 2 ∧
    ¬ reservationCount raceResult.store 1 ≤ airplaneSolo.Capacity := by
  decide

/-- C2 amended: when a booking request runs as one uninterleaved unit it
preserves the capacity invariant — it adds a row exactly when the count
is below capacity, rejects with `FlightFull` otherwise, and never drives
the count above the airplane's capacity — but the handler provides no
serialization, so interleaved requests can overshoot. -/
theorem C2_sequential_capacity (st : Store) (pname : String) (fid : Nat)
    (hf : HydratedFlight) (ap : Airplane)
    (h1 : findFlightHydrated st fid = some hf) (h5 : hf.airplane = some ap) :
    (reservationCount st fid < ap.Capacity →
      reservationCount (createReservation st pname fid).2 fid = reservationCount st fid + 1)
    ∧ (ap.Capacity ≤ reservationCount st fid →
      createReservation st pname fid = (.err 409 "The flight is already full.", st))
    ∧ (reservationCount st fid ≤ ap.Capacity →
      reservationCount (createReservation st pname fid).2 fid ≤ ap.Capacity) := by
  refine ⟨?_, ?_, ?_⟩
  · intro hlt
    rw [createReservation_state_of_lt pname h1 h5 hlt]
    exact reservationCount_insert st pname fid
  · intro hge
    exact createReservation_of_ge pname h1 h5 hge
  · intro hle
    rcases Nat.lt_or_ge (reservationCount st fid) ap.Capacity with hlt | hge
    · rw [createReservation_state_of_lt pname h1 h5 hlt, reservationCount_insert]
      omega
    · rw [createReservation_of_ge pname h1 h5 hge]
      exact hle

/-- C2 amended witness: a single booking on the capacity-2 flight of the
demo store keeps the count within capacity. -/
theorem C2_witness :
    reservationCount (createReservation demoStore "Ann" 2).2 2 ≤ airplaneDuo.Capacity :=
  (C2_sequential_capacity demoStore "Ann" 2 hydratedDuo airplaneDuo (by rfl) rfl).2.2
    (by decide)

/-- C3: booking against a `FlightID` matching no stored flight answers
409 `No such flight exists.` and returns the store unchanged, so no
`Reservation` row is created. -/
theorem C3_no_such_flight (st : Store) (pname : String) (fid : Nat)
    (h : st.flights.find? (fun f => f.ID == fid) = none) :
    createReservation st pname fid = (.err 409 "No such flight exists.", st) := by
  unfold createReservation findFlightHydrated
  rw [h]
  rfl

/-- C3 witness: booking flight 9999 on the demo store rejects and leaves
the store unchanged. -/
theorem C3_witness :
    demoStore.flights.find? (fun f => f.ID == 9999) = none ∧
    createReservation demoStore "Dave" 9999 = (.err 409 "No such flight exists.", demoStore) :=
  ⟨by rfl, C3_no_such_flight demoStore "Dave" 9999 (by rfl)⟩

/-- C8: booking a stored flight whose `AirplaneID` matches no airplane
row dereferences the `null` airplane association in the capacity check,
falls into the catch branch, and answers the generic 500 `Failed to
create reservation.` with the store unchanged. -/
theorem C8_dangling_airplane (st : Store) (pname : String) (fid : Nat)
    (hf : HydratedFlight)
    (h1 : findFlightHydrated st fid = some hf) (h5 : hf.airplane = none) :
    createReservation st pname fid = (.err 500 "Failed to create reservation.", st) := by
  unfold createReservation
  rw [h1]
  simp [h5]

/-- C8 witness: flight 3 of the demo store references airplane 9, which
does not exist; booking it yields the generic 500. -/
theorem C8_witness :
    findFlightHydrated demoStore 3 = some hydratedGhost ∧
    hydratedGhost.airplane = none ∧
    createReservation demoStore "Dave" 3 =
      (.err 500 "Failed to create reservation.", demoStore) :=
  ⟨by rfl, rfl, C8_dangling_airplane demoStore "Dave" 3 hydratedGhost (by rfl) rfl⟩

/-- C9: listing the reservations of a stored flight that has none
answers 200 with an empty `reservations` array. -/
theorem C9_empty_list_ok (st : Store) (fid : Nat) (hf : HydratedFlight)
    (h1 : findFlightHydrated st fid = some hf)
    (h0 : st.reservations.filter (fun r => r.FlightID == hf.self.ID) = []) :
    listReservationsForFlight st fid =
      .okReservations "Reservations retrieved successfully" [] := by
  unfold listReservationsForFlight
  rw [h1]
  simp only [h0]
  rfl

/-- C9 witness: flight 1 of the demo store has no reservations and lists
as 200 with an empty array. -/
theorem C9_witness :
    listReservationsForFlight demoStore 1 =
      .okReservations "Reservations retrieved successfully" [] :=
  C9_empty_list_ok demoStore 1 hydratedSolo (by rfl) (by rfl)

/-- C4: a successful booking answers with the denormalized record built
field by field from the stored Flight, Itinerary, both Airport and
Airplane rows; the list-by-flight handler builds every returned item
with the same nested `Flight` object from the context resolved once;
and the two response-building sites produce identical shapes. -/
theorem C4_denormalization_fidelity (st : Store) (pname : String) (fid : Nat)
    (f : Flights) (itin : Itinerary) (o d : Airport) (ap : Airplane)
    (h1 : st.flights.find? (fun x => x.ID == fid) = some f)
    (h2 : st.itineraries.find? (fun i => i.ID == f.ItineraryID) = some itin)
    (h3 : st.airports.find? (fun a => a.ID == itin.OriginAirportID) = some o)
    (h4 : st.airports.find? (fun a => a.ID == itin.DestinationAirportID) = some d)
    (h5 : st.airplanes.find? (fun a => a.ID == f.AirplaneID) = some ap)
    (hlt : reservationCount st fid < ap.Capacity) :
    (createReservation st pname fid).1 =
      .okReservation "Reservation created successfully"
        { ID := st.nextReservationID, PassengerName := pname
          Flight := flightViewOf f itin o d ap }
    ∧ listReservationsForFlight st fid =
        .okReservations "Reservations retrieved successfully"
          ((st.reservations.filter (fun r => r.FlightID == f.ID)).map
            (fun r => { ID := r.ID, PassengerName := r.PassengerName
                        Flight := flightViewOf f itin o d ap }))
    ∧ (∀ r hfx, mkListRecord r hfx = mkCreateRecord r hfx) := by
  have hhf : findFlightHydrated st fid =
      some { self := f, itinerary := some itin, origin := some o
             dest := some d, airplane := some ap } := by
    unfold findFlightHydrated
    rw [h1]
    simp [h2, h3, h4, h5]
  refine ⟨?_, ?_, mkListRecord_eq_mkCreateRecord⟩
  · exact createReservation_resp_of_lt pname hhf rfl rfl rfl rfl hlt
  · unfold listReservationsForFlight
    rw [hhf]
    have hfn : (fun r => mkListRecord r
        { self := f, itinerary := some itin, origin := some o
          dest := some d, airplane := some ap }) =
        fun r => some { ID := r.ID, PassengerName := r.PassengerName
                        Flight := flightViewOf f itin o d ap } := by
      funext r
      rw [mkListRecord_eq_mkCreateRecord, mkCreateRecord_eq_some r rfl rfl rfl rfl]
    simp only [hfn, mapM_option_total]

/-- C4 witness: on the demo store holding one reservation for flight 2,
both the booking response for flight 2 and the single listed item carry
the denormalized record of the stored rows. -/
theorem C4_witness :
    (createReservation demoStoreR "Ann" 2).1 =
      .okReservation "Reservation created successfully"
        { ID := 2, PassengerName := "Ann"
          Flight := flightViewOf flightDuo itineraryAB airportAlpha airportBeta airplaneDuo }
    ∧ listReservationsForFlight demoStoreR 2 =
        .okReservations "Reservations retrieved successfully"
          [{ ID := 1, PassengerName := "Carol"
             Flight := flightViewOf flightDuo itineraryAB airportAlpha airportBeta airplaneDuo }]
    ∧ (∀ r hfx, mkListRecord r hfx = mkCreateRecord r hfx) :=
  C4_denormalization_fidelity demoStoreR "Ann" 2
    flightDuo itineraryAB airportAlpha airportBeta airplaneDuo
    (by rfl) (by rfl) (by rfl) (by rfl) (by rfl) (by decide)

/-- C6: with a valid (positive) reservation ID, cancel answers 200 and
deletes the row when a reservation with that ID exists and 404 `Reservation
not found.` with the store unchanged when none does; cancelling the same
ID twice gives 200 then 404; and cancellation touches no airplane or
flight row (there is no stored capacity counter to update). -/
theorem C6_cancel_contract (st : Store) (id : Nat) (r : Reservation) (hpos : 0 < id) :
    (st.reservations.find? (fun x => x.ID == id) = some r →
      (deleteReservation st id).1 = .okMessage "Reservation deleted successfully."
      ∧ (deleteReservation st id).1.status = 200
      ∧ (deleteReservation (deleteReservation st id).2 id).1 =
          .err 404 "Reservation not found."
      ∧ (deleteReservation st id).2.airplanes = st.airplanes
      ∧ (deleteReservation st id).2.flights = st.flights)
    ∧ (st.reservations.find? (fun x => x.ID == id) = none →
      deleteReservation st id = (.err 404 "Reservation not found.", st)) := by
  have hnz : ¬ id = 0 := by omega
  constructor
  · intro hfind
    have hnone : (st.reservations.filter (fun x => x.ID != id)).find?
        (fun x => x.ID == id) = none := by
      rw [List.find?_eq_none]
      intro x hx
      have := (List.mem_filter.1 hx).2
      simp only [bne_iff_ne, ne_eq] at this
      simp [this]
    unfold deleteReservation
    simp [if_neg hnz, hfind, hnone, Response.status]
  · intro hfind
    unfold deleteReservation
    simp [if_neg hnz, hfind]

/-- C6 witness: on the demo store holding reservation 1, cancelling ID 1
succeeds with 200 and cancelling it again answers 404. -/
theorem C6_witness :
    (deleteReservation demoStoreR 1).1 = .okMessage "Reservation deleted successfully."
    ∧ (deleteReservation demoStoreR 1).1.status = 200
    ∧ (deleteReservation (deleteReservation demoStoreR 1).2 1).1 =
        .err 404 "Reservation not found."
    ∧ (deleteReservation demoStoreR 1).2.airplanes = demoStoreR.airplanes
    ∧ (deleteReservation demoStoreR 1).2.flights = demoStoreR.flights :=
  (C6_cancel_contract demoStoreR 1 { ID := 1, PassengerName := "Carol", FlightID := 2 }
    (by decide)).1 (by rfl)

/-- C7: flight creation rejects with 409 `Invalid itinerary ID.` when the
itinerary reference dangles, with 409 `Invalid airplane ID.` when the
itinerary exists but the airplane reference dangles, with 422 when both
exist and `ArrivalTime ≤ DepartureTime`; and a flight row is appended
exactly when both references exist and `DepartureTime < ArrivalTime`. -/
theorem C7_flight_create_preconditions (st : Store) (itinID depT arrT apID : Nat) :
    (st.itineraries.find? (fun i => i.ID == itinID) = none →
      createFlight st itinID depT arrT apID = (.err 409 "Invalid itinerary ID.", st))
    ∧ ((st.itineraries.find? (fun i => i.ID == itinID)).isSome = true →
      st.airplanes.find? (fun a => a.ID == apID) = none →
      createFlight st itinID depT arrT apID = (.err 409 "Invalid airplane ID.", st))
    ∧ ((st.itineraries.find? (fun i => i.ID == itinID)).isSome = true →
      (st.airplanes.find? (fun a => a.ID == apID)).isSome = true →
      arrT ≤ depT →
      createFlight st itinID depT arrT apID =
        (.err 422 "Arrival time must be after departure time.", st))
    ∧ ((createFlight st itinID depT arrT apID).2.flights.length = st.flights.length + 1 ↔
      (st.itineraries.find? (fun i => i.ID == itinID)).isSome = true
      ∧ (st.airplanes.find? (fun a => a.ID == apID)).isSome = true
      ∧ depT < arrT) := by
  unfold createFlight
  cases hI : st.itineraries.find? (fun i => i.ID == itinID) with
  | none => simp
  | some itin =>
    cases hA : st.airplanes.find? (fun a => a.ID == apID) with
    | none => simp
    | some ap =>
      by_cases ht : arrT ≤ depT
      · simp [ht]
      · simp [ht]
        omega

/-- C7 witness: creating a flight on the demo store with itinerary 7
(which does not exist) rejects with 409 naming the itinerary. -/
theorem C7_witness :
    createFlight demoStore 7 10 20 1 = (.err 409 "Invalid itinerary ID.", demoStore) :=
  (C7_flight_create_preconditions demoStore 7 10 20 1).1 (by rfl)

/-- C10: a successful cancel removes exactly the one reservation row
with the given ID — the result is one row shorter, every other
reservation row survives, no row with that ID remains — and the
Airport, Itinerary, Airplane and Flights tables are untouched. -/
theorem C10_cancel_frame (st : Store) (id : Nat) (r : Reservation)
    (hpos : 0 < id)
    (hfind : st.reservations.find? (fun x => x.ID == id) = some r)
    (huniq : st.reservations.countP (fun x => x.ID == id) = 1) :
    (deleteReservation st id).1 = .okMessage "Reservation deleted successfully."
    ∧ (deleteReservation st id).2.airports = st.airports
    ∧ (deleteReservation st id).2.itineraries = st.itineraries
    ∧ (deleteReservation st id).2.airplanes = st.airplanes
    ∧ (deleteReservation st id).2.flights = st.flights
    ∧ (deleteReservation st id).2.reservations.length + 1 = st.reservations.length
    ∧ (∀ x ∈ st.reservations, x.ID ≠ id → x ∈ (deleteReservation st id).2.reservations)
    ∧ (∀ x ∈ (deleteReservation st id).2.reservations, x.ID ≠ id ∧ x ∈ st.reservations) := by
  have hnz : ¬ id = 0 := by omega
  unfold deleteReservation
  simp only [if_neg hnz, hfind]
  refine ⟨by simp, by simp, by simp, by simp, by simp, ?_, ?_, ?_⟩
  · have hlen : (st.reservations.filter (fun x => x.ID != id)).length +
        st.reservations.countP (fun x => x.ID == id) = st.reservations.length := by
      induction st.reservations with
      | nil => rfl
      | cons a l ih =>
        by_cases h : a.ID = id <;>
          simp [List.filter_cons, List.countP_cons, h, ih] <;> omega
    omega
  · intro x hx hne
    exact List.mem_filter.2 ⟨hx, by simp [hne]⟩
  · intro x hx
    have := List.mem_filter.1 hx
    refine ⟨?_, this.1⟩
    have h2 := this.2
    simpa using h2

/-- C10 witness: cancelling reservation 1 on the demo store leaves the
entity tables unchanged and exactly removes that row. -/
theorem C10_witness :
    (deleteReservation demoStoreR 1).1 = .okMessage "Reservation deleted successfully."
    ∧ (deleteReservation demoStoreR 1).2.airports = demoStoreR.airports
    ∧ (deleteReservation demoStoreR 1).2.itineraries = demoStoreR.itineraries
    ∧ (deleteReservation demoStoreR 1).2.airplanes = demoStoreR.airplanes
    ∧ (deleteReservation demoStoreR 1).2.flights = demoStoreR.flights
    ∧ (deleteReservation demoStoreR 1).2.reservations.length + 1 =
        demoStoreR.reservations.length
    ∧ (∀ x ∈ demoStoreR.reservations, x.ID ≠ 1 →
        x ∈ (deleteReservation demoStoreR 1).2.reservations)
    ∧ (∀ x ∈ (deleteReservation demoStoreR 1).2.reservations,
        x.ID ≠ 1 ∧ x ∈ demoStoreR.reservations) :=
  C10_cancel_frame demoStoreR 1 { ID := 1, PassengerName := "Carol", FlightID := 2 }
    (by decide) (by rfl) (by rfl)

/-- C5: on a flight with a fully hydrated context, a capacity-1
airplane and no reservations (in a store whose reservation IDs sit
below the next assigned ID), book–cancel–book succeeds at all three
steps and leaves exactly one live reservation for the flight, because
admission recounts the reservations on every request. -/
theorem C5_cancel_then_rebook (st : Store) (pA pB : String) (fid : Nat)
    (hf : HydratedFlight) (itin : Itinerary) (o d : Airport) (ap : Airplane)
    (h1 : findFlightHydrated st fid = some hf)
    (h2 : hf.itinerary = some itin) (h3 : hf.origin = some o)
    (h4 : hf.dest = some d) (h5 : hf.airplane = some ap)
    (hcap : ap.Capacity = 1)
    (h0 : reservationCount st fid = 0)
    (hwf : ∀ r ∈ st.reservations, r.ID < st.nextReservationID)
    (hpos : 0 < st.nextReservationID) :
    (createReservation st pA fid).1.status = 200
    ∧ (deleteReservation (createReservation st pA fid).2 st.nextReservationID).1 =
        .okMessage "Reservation deleted successfully."
    ∧ (createReservation
        (deleteReservation (createReservation st pA fid).2 st.nextReservationID).2
        pB fid).1.status = 200
    ∧ reservationCount
        (createReservation
          (deleteReservation (createReservation st pA fid).2 st.nextReservationID).2
          pB fid).2 fid = 1 := by
  have hlt : reservationCount st fid < ap.Capacity := by omega
  have hnz : ¬ st.nextReservationID = 0 := by omega
  have hst1 : (createReservation st pA fid).2 = insertReservationState st pA fid :=
    createReservation_state_of_lt pA h1 h5 hlt
  -- the first booking finds the fresh row, the cancel removes exactly it
  have hn : st.reservations.find? (fun x => x.ID == st.nextReservationID) = none := by
    rw [List.find?_eq_none]
    intro x hx
    have hx' := hwf x hx
    simp only [beq_iff_eq]
    omega
  have hfind1 : (insertReservationState st pA fid).reservations.find?
      (fun x => x.ID == st.nextReservationID) =
      some { ID := st.nextReservationID, PassengerName := pA, FlightID := fid } := by
    simp only [insertReservationState]
    rw [List.find?_append, hn]
    simp
  have e1 : st.reservations.filter (fun x => x.ID != st.nextReservationID) =
      st.reservations := by
    rw [List.filter_eq_self]
    intro x hx
    have hx' := hwf x hx
    simp only [bne_iff_ne, ne_eq]
    omega
  have hfilter : (insertReservationState st pA fid).reservations.filter
      (fun x => x.ID != st.nextReservationID) = st.reservations := by
    simp only [insertReservationState]
    rw [List.filter_append, e1]
    simp
  have hdel : deleteReservation (insertReservationState st pA fid) st.nextReservationID =
      (.okMessage "Reservation deleted successfully.",
        { st with nextReservationID := st.nextReservationID + 1 }) := by
    unfold deleteReservation
    rw [if_neg hnz, hfind1, hfilter]
    rfl
  -- after the cancel the store is the original one with a bumped counter
  have hhf2 : findFlightHydrated
      { st with nextReservationID := st.nextReservationID + 1 } fid = some hf := by
    rw [findFlightHydrated_congr fid rfl rfl rfl rfl]
    exact h1
  have h0' : reservationCount
      { st with nextReservationID := st.nextReservationID + 1 } fid = 0 := h0
  have hlt2 : reservationCount
      { st with nextReservationID := st.nextReservationID + 1 } fid < ap.Capacity := by
    rw [h0']
    omega
  refine ⟨?_, ?_, ?_, ?_⟩
  · rw [createReservation_resp_of_lt pA h1 h2 h3 h4 h5 hlt]
    rfl
  · rw [hst1, hdel]
  · rw [hst1, hdel]
    rw [createReservation_resp_of_lt pB hhf2 h2 h3 h4 h5 hlt2]
    rfl
  · rw [hst1, hdel]
    rw [createReservation_state_of_lt pB hhf2 h5 hlt2, reservationCount_insert, h0']

/-- C5 witness: on the demo store, booking the capacity-1 flight 1,
cancelling reservation 1, and booking again succeeds throughout and
leaves one reservation for flight 1. -/
theorem C5_witness :
    (createReservation demoStore "Ann" 1).1.status = 200
    ∧ (deleteReservation (createReservation demoStore "Ann" 1).2 1).1 =
        .okMessage "Reservation deleted successfully."
    ∧ (createReservation
        (deleteReservation (createReservation demoStore "Ann" 1).2 1).2
        "Ben" 1).1.status = 200
    ∧ reservationCount
        (createReservation
          (deleteReservation (createReservation demoStore "Ann" 1).2 1).2
          "Ben" 1).2 1 = 1 :=
  C5_cancel_then_rebook demoStore "Ann" "Ben" 1
    hydratedSolo itineraryAB airportAlpha airportBeta airplaneSolo
    (by rfl) rfl rfl rfl rfl rfl rfl (by decide) (by decide)

end AirportMS
